import Mathlib

/-!
Verification development for the Virtual-Doctor interactive application
(`interactive_app.py`): a sequential four-stage LLM pipeline
(general doctor → diagnosis → medication → follow-up).

The remote generative model is treated as an opaque collaborator: a
function from the prompt string to one of the outcomes the Python code
distinguishes (a returned text, a `ResourceExhausted` exception, a
`Forbidden` exception, or any other exception).  Everything else —
prompt-template formatting, required-field checks, sentinel strings,
and the workflow driver's short-circuiting — is embedded directly from
the source.
-/

/-- Model of Python `str.strip()`: drop whitespace from both ends. -/
def pyStrip (s : String) : String :=
  String.mk (((s.data.dropWhile Char.isWhitespace).reverse.dropWhile Char.isWhitespace).reverse)

/-- Python truthiness of `dict.get(key)` on a `Dict[str, str]`:
`None` (absent key) and the empty string are falsy. -/
def truthy : Option String → Bool
  | none => false
  | some s => !(s == "")

/-- `listPrefixOf pat l` is true when `pat` is a prefix of `l`. -/
def listPrefixOf : List Char → List Char → Bool
  | [], _ => true
  | _ :: _, [] => false
  | a :: as, b :: bs => a == b && listPrefixOf as bs

/-- `containsAux pat l` is true when `pat` occurs as a contiguous
sublist of `l`. -/
def containsAux (pat : List Char) : List Char → Bool
  | [] => listPrefixOf pat []
  | c :: rest => listPrefixOf pat (c :: rest) || containsAux pat rest

/-- Model of Python `pat in s` on strings: substring containment. -/
def strContains (s pat : String) : Bool :=
  containsAux pat.data s.data

/-- The four workflow roles of the `Agent` class. -/
inductive Role
  | GeneralDoctor
  | Diagnosis
  | Medication
  | FollowUp
deriving DecidableEq, Repr

/-- `input_data`: a mapping from field name to text, as built by the
agent constructors (`{"symptoms": symptoms}` and so on). -/
def InputData := List (String × String)

/-- The outcomes of `self.model.invoke(prompt)` that `Agent.run`
distinguishes: a returned response text, a `ResourceExhausted`
exception, a `Forbidden` exception, or any other exception. -/
inductive ModelResponse
  | text : String → ModelResponse
  | rateLimit : ModelResponse
  | forbidden : ModelResponse
  | failure : ModelResponse
deriving DecidableEq, Repr

/-- The remote model, as an opaque function from prompt to outcome. -/
def Model := String → ModelResponse

/-! ### Prompt templates (transcribed verbatim from `create_prompt_template`) -/

def generalDoctorTemplate : String :=
  "\n                You are a medical assistant analyzing patient-reported symptoms. Provide 2-3 possible conditions with brief reasons, using this exact format:\n                - Condition 1: [Name] - [Reason]\n                - Condition 2: [Name] - [Reason]\n                - Condition 3: [Name] - [Reason]\n                Input: {symptoms}\n            "

def diagnosisTemplate : String :=
  "\n                You are a medical assistant reviewing a preliminary assessment. Suggest a likely condition, clinic type, and specialist type, using this exact format:\n                - Diagnosis: [Condition] - [Explanation]\n                - Recommended Clinic: [Clinic type]\n                - Recommended Doctor Type: [Specialist type]\n                Input: {preliminary_assessment}\n            "

def medicationTemplate : String :=
  "\n                You are a medical assistant providing treatment options based on a diagnosis. Suggest 2-3 medications with their role, dosage, and schedule, using this exact format:\n                - Medication 1: [Name] - Role: [Role] - Dosage: [Dosage] - Schedule: [Schedule]\n                - Medication 2: [Name] - Role: [Role] - Dosage: [Dosage] - Schedule: [Schedule]\n                - Medication 3: [Name] - Role: [Role] - Dosage: [Dosage] - Schedule: [Schedule]\n                Input: {diagnosis}\n            "

def followUpTemplate : String :=
  "\n                You are a medical assistant coordinating follow-up care. Suggest 2 follow-up actions and monitoring tips, using this exact format:\n                - Follow-Up Action 1: [Action] - [Timeline]\n                - Follow-Up Action 2: [Action] - [Timeline]\n                - Monitoring for New Issues: [Suggestions]\n                Input:\n                - Symptoms: {symptoms}\n                - Preliminary Assessment: {preliminary_assessment}\n                - Diagnosis: {diagnosis}\n                - Medications: {medications}\n            "

/-- The template assigned to each role by `create_prompt_template`. -/
def roleTemplate : Role → String
  | Role.GeneralDoctor => generalDoctorTemplate
  | Role.Diagnosis => diagnosisTemplate
  | Role.Medication => medicationTemplate
  | Role.FollowUp => followUpTemplate

/-! ### `str.format` substitution

`PromptTemplate.format` performs Python `str.format` substitution on
the template: the template text is scanned once, left to right; a
placeholder `\x7bname\x7d` is replaced by the value bound to `name`,
and replaced text is not rescanned.  The templates above contain no
escaped braces and no format specs, so the plain scan below is a
faithful model on them.  `some acc` is the scanner state inside a
placeholder whose name characters so far are `acc` (reversed). -/
def formatChars (f : String → String) : List Char → Option (List Char) → List Char
  | [], none => []
  | [], some acc => (f (String.mk acc.reverse)).data
  | c :: rest, none =>
    if c == '\x7b' then formatChars f rest (some [])
    else c :: formatChars f rest none
  | c :: rest, some acc =>
    if c == '\x7d' then (f (String.mk acc.reverse)).data ++ formatChars f rest none
    else formatChars f rest (some (c :: acc))

/-- `str.format` applied to a whole template with value mapping `f`. -/
def formatTemplate (tmpl : String) (f : String → String) : String :=
  String.mk (formatChars f tmpl.data none)

/-! ### `Agent` and `Agent.run` -/

/-- The required-field checks and prompt construction of `Agent.run`
(lines 86–106): each role checks the truthiness of its required
`input_data` fields and, when all are present, formats its template
with those fields.  Returns `none` exactly when `Agent.run` returns
`None` before invoking the model. -/
def buildPrompt : Role → InputData → Option String
  | Role.GeneralDoctor, d =>
    if truthy (d.lookup "symptoms") then
      some (formatTemplate generalDoctorTemplate
        (fun n => if n == "symptoms" then ((d.lookup "symptoms").getD "") else ""))
    else none
  | Role.Diagnosis, d =>
    if truthy (d.lookup "preliminary_assessment") then
      some (formatTemplate diagnosisTemplate
        (fun n => if n == "preliminary_assessment" then ((d.lookup "preliminary_assessment").getD "") else ""))
    else none
  | Role.Medication, d =>
    if truthy (d.lookup "diagnosis") then
      some (formatTemplate medicationTemplate
        (fun n => if n == "diagnosis" then ((d.lookup "diagnosis").getD "") else ""))
    else none
  | Role.FollowUp, d =>
    if (["symptoms", "preliminary_assessment", "diagnosis", "medications"].all
        (fun k => truthy (d.lookup k))) then
      some (formatTemplate followUpTemplate (fun n => (d.lookup n).getD ""))
    else none

/-- An `Agent`: a role, its `input_data`, and its model handle
(`none` when `ChatGoogleGenerativeAI` initialization failed). -/
structure Agent where
  role : Role
  input_data : InputData
  model : Option Model

/-- Sentinel returned on `ResourceExhausted`. -/
def rateLimitSentinel : String := "Error: Rate limit exceeded, please try again later"

/-- Sentinel returned on `Forbidden`. -/
def forbiddenSentinel : String := "Error: Invalid API key or insufficient permissions"

/-- Sentinel returned on an empty (safety-filtered) response. -/
def blockedSentinel : String := "Blocked: Response filtered due to content restrictions"

/-- `Agent.run` (lines 79–129): return `None` when the model is not
initialized; return `None` when a required field is missing (the model
is never invoked); otherwise invoke the model on the formatted prompt
and map the outcome: whitespace-only text → the blocked sentinel,
text → the text, `ResourceExhausted` → the rate-limit sentinel,
`Forbidden` → the permission sentinel, any other exception → `None`. -/
def Agent.run (a : Agent) : Option String :=
  match a.model with
  | none => none
  | some m =>
    match buildPrompt a.role a.input_data with
    | none => none
    | some prompt =>
      match m prompt with
      | ModelResponse.text t =>
        if pyStrip t == "" then
          some blockedSentinel
        else
          some t
      | ModelResponse.rateLimit => some rateLimitSentinel
      | ModelResponse.forbidden => some forbiddenSentinel
      | ModelResponse.failure => none

/-! ### The four agent subclasses -/

/-- `GeneralDoctorAgent(symptoms)`. -/
def GeneralDoctorAgent (model : Option Model) (symptoms : String) : Agent :=
  ⟨Role.GeneralDoctor, [("symptoms", symptoms)], model⟩

/-- `DiagnosisAgent(preliminary_assessment)`. -/
def DiagnosisAgent (model : Option Model) (preliminary_assessment : String) : Agent :=
  ⟨Role.Diagnosis, [("preliminary_assessment", preliminary_assessment)], model⟩

/-- `MedicationAgent(diagnosis)`. -/
def MedicationAgent (model : Option Model) (diagnosis : String) : Agent :=
  ⟨Role.Medication, [("diagnosis", diagnosis)], model⟩

/-- `FollowUpAgent(symptoms, preliminary_assessment, diagnosis, medications)`. -/
def FollowUpAgent (model : Option Model) (symptoms preliminary_assessment diagnosis medications : String) : Agent :=
  ⟨Role.FollowUp,
    [("symptoms", symptoms), ("preliminary_assessment", preliminary_assessment),
     ("diagnosis", diagnosis), ("medications", medications)], model⟩

/-! ### The workflow driver -/

/-- The models for the four agents constructed by `run_workflow`
(each constructor initializes its own `ChatGoogleGenerativeAI`;
`none` records an initialization failure for that stage). -/
structure Env where
  generalDoctorModel : Option Model
  diagnosisModel : Option Model
  medicationModel : Option Model
  followUpModel : Option Model

/-- The stage-failure test of `run_workflow`:
`not r or "Error" in r or "Blocked" in r`. -/
def failedOutput : Option String → Bool
  | none => true
  | some s => s == "" || strContains s "Error" || strContains s "Blocked"

/-- `run_workflow(symptoms)` (lines 152–187): run the four stages in
order, record each output under its key, and stop as soon as a stage's
output fails the sentinel test.  The result dictionary is modelled as
an association list in insertion order; `Option.getD ""` extracts the
stage text that Python passes on (at each use the preceding failure
test guarantees the value is a non-empty string). -/
def run_workflow (env : Env) (symptoms : String) : List (String × Option String) :=
  let r1 := (GeneralDoctorAgent env.generalDoctorModel symptoms).run
  if failedOutput r1 then
    [("general_doctor", r1)]
  else
    let r2 := (DiagnosisAgent env.diagnosisModel (r1.getD "")).run
    if failedOutput r2 then
      [("general_doctor", r1), ("diagnosis", r2)]
    else
      let r3 := (MedicationAgent env.medicationModel (r2.getD "")).run
      if failedOutput r3 then
        [("general_doctor", r1), ("diagnosis", r2), ("medication", r3)]
      else
        let r4 := (FollowUpAgent env.followUpModel symptoms (r1.getD "") (r2.getD "") (r3.getD "")).run
        [("general_doctor", r1), ("diagnosis", r2), ("medication", r3), ("follow_up", r4)]

/-! ### The CLI (`main`)

`main` is modelled as a function from the environment and the list of
standard-input lines to the pair (lines passed to `print`, unconsumed
input lines).  The prompt argument of `input(...)` is display glue and
is not recorded; each `input()` call consumes one line. -/

/-- `get_user_input`: read one line and strip it.  An exhausted input
stream is modelled as the empty line. -/
def get_user_input (lines : List String) : String × List String :=
  match lines with
  | [] => ("", [])
  | l :: rest => (pyStrip l, rest)

/-- Model of `print(results.get(key, "No output available"))`: the
default is used only when the key is absent; a key present with value
`None` prints the text `None`. -/
def dictGetPrint (results : List (String × Option String)) (k : String) : String :=
  match results.lookup k with
  | none => "No output available"
  | some none => "None"
  | some (some s) => s

/-- Model of `print(result if result else "No output available")`:
`None` and the empty string print the default. -/
def truthyPrint : Option String → String
  | none => "No output available"
  | some s => if s == "" then "No output available" else s

/-- The seven menu lines printed at the top of `main`. -/
def menuLines : List String :=
  ["=== Medical Workflow Interface ===",
   "Choose an option:",
   "1. Run full workflow",
   "2. Run General Doctor Agent",
   "3. Run Diagnosis Agent",
   "4. Run Medication Agent",
   "5. Run Follow-Up Agent"]

/-- The message printed for an unrecognized menu choice. -/
def invalidChoiceLine : String := "Invalid choice. Please select a number between 1 and 5."

/-- `main()` (lines 193–257): print the menu, read the choice, and
dispatch.  Options 1–4 read one further line, option 5 reads four;
any other choice prints the invalid-choice message and constructs no
agent. -/
def mainCLI (env : Env) (stdinLines : List String) : List String × List String :=
  let p1 := get_user_input stdinLines
  let choice := p1.1
  let rest := p1.2
  if choice == "1" then
    let p2 := get_user_input rest
    let results := run_workflow env p2.1
    (menuLines ++
      ["\n=== Running Full Workflow ===",
       "\nGeneral Doctor Assessment:", dictGetPrint results "general_doctor",
       "\nDiagnosis:", dictGetPrint results "diagnosis",
       "\nMedication Recommendations:", dictGetPrint results "medication",
       "\nFollow-Up Recommendations:", dictGetPrint results "follow_up"], p2.2)
  else if choice == "2" then
    let p2 := get_user_input rest
    let result := (GeneralDoctorAgent env.generalDoctorModel p2.1).run
    (menuLines ++
      ["\n=== Running General Doctor Agent ===",
       "\nGeneral Doctor Assessment:", truthyPrint result], p2.2)
  else if choice == "3" then
    let p2 := get_user_input rest
    let result := (DiagnosisAgent env.diagnosisModel p2.1).run
    (menuLines ++
      ["\n=== Running Diagnosis Agent ===",
       "\nDiagnosis:", truthyPrint result], p2.2)
  else if choice == "4" then
    let p2 := get_user_input rest
    let result := (MedicationAgent env.medicationModel p2.1).run
    (menuLines ++
      ["\n=== Running Medication Agent ===",
       "\nMedication Recommendations:", truthyPrint result], p2.2)
  else if choice == "5" then
    let p2 := get_user_input rest
    let p3 := get_user_input p2.2
    let p4 := get_user_input p3.2
    let p5 := get_user_input p4.2
    let result := (FollowUpAgent env.followUpModel p2.1 p3.1 p4.1 p5.1).run
    (menuLines ++
      ["\n=== Running Follow-Up Agent ===",
       "\nFollow-Up Recommendations:", truthyPrint result], p5.2)
  else
    (menuLines ++ [invalidChoiceLine], rest)

/-! ### Lemmas about `str.format` substitution -/

/-- Characters before a placeholder pass through the scanner unchanged. -/
theorem formatChars_append_no_brace (f : String → String) (pre l : List Char)
    (h : pre.all (fun c => !(c == '\x7b')) = true) :
    formatChars f (pre ++ l) none = pre ++ formatChars f l none := by
  induction pre with
  | nil => rfl
  | cons a as ih =>
    simp only [List.all_cons, Bool.and_eq_true] at h
    have hb : (a == '\x7b') = false := by simpa using h.1
    simp only [List.cons_append, formatChars, hb, Bool.false_eq_true, if_false]
    exact congrArg (a :: ·) (ih h.2)

/-- A bracket-free tail is left unchanged by the scanner. -/
theorem formatChars_no_brace (f : String → String) (l : List Char)
    (h : l.all (fun c => !(c == '\x7b')) = true) :
    formatChars f l none = l := by
  have h2 := formatChars_append_no_brace f l [] h
  simpa [formatChars] using h2

/-- Inside a placeholder the scanner collects the name up to the
closing brace and substitutes the bound value. -/
theorem formatChars_placeholder (f : String → String) (name rest : List Char)
    (h : name.all (fun c => !(c == '\x7d')) = true) :
    ∀ acc, formatChars f (name ++ '\x7d' :: rest) (some acc)
      = (f (String.mk (acc.reverse ++ name))).data ++ formatChars f rest none := by
  induction name with
  | nil => intro acc; simp [formatChars]
  | cons a as ih =>
    intro acc
    simp only [List.all_cons, Bool.and_eq_true] at h
    have hb : (a == '\x7d') = false := by simpa using h.1
    simp only [List.cons_append, formatChars, hb, Bool.false_eq_true, if_false]
    calc formatChars f (as ++ '\x7d' :: rest) (some (a :: acc))
        = (f (String.mk ((a :: acc).reverse ++ as))).data ++ formatChars f rest none :=
          ih h.2 (a :: acc)
      _ = (f (String.mk (acc.reverse ++ a :: as))).data ++ formatChars f rest none := by
          simp

/-- One placeholder substitution: a brace-free prefix, a placeholder,
and the scanner continuing on the rest. -/
theorem formatChars_subst (f : String → String) (pre name rest : List Char)
    (hpre : pre.all (fun c => !(c == '\x7b')) = true)
    (hname : name.all (fun c => !(c == '\x7d')) = true) :
    formatChars f (pre ++ '\x7b' :: (name ++ '\x7d' :: rest)) none
      = pre ++ ((f (String.mk name)).data ++ formatChars f rest none) := by
  rw [formatChars_append_no_brace f pre _ hpre]
  simp only [formatChars, beq_self_eq_true, if_true]
  rw [formatChars_placeholder f name rest hname []]
  simp

/-! ### Template decompositions around their placeholders -/

/-- Common tail of all four templates (after the last placeholder). -/
def tmplEnd : String := "\n            "

/-- `generalDoctorTemplate` up to its `symptoms` placeholder. -/
def gdPre : String :=
  "\n                You are a medical assistant analyzing patient-reported symptoms. Provide 2-3 possible conditions with brief reasons, using this exact format:\n                - Condition 1: [Name] - [Reason]\n                - Condition 2: [Name] - [Reason]\n                - Condition 3: [Name] - [Reason]\n                Input: "

/-- `diagnosisTemplate` up to its `preliminary_assessment` placeholder. -/
def diagPre : String :=
  "\n                You are a medical assistant reviewing a preliminary assessment. Suggest a likely condition, clinic type, and specialist type, using this exact format:\n                - Diagnosis: [Condition] - [Explanation]\n                - Recommended Clinic: [Clinic type]\n                - Recommended Doctor Type: [Specialist type]\n                Input: "

/-- `medicationTemplate` up to its `diagnosis` placeholder. -/
def medPre : String :=
  "\n                You are a medical assistant providing treatment options based on a diagnosis. Suggest 2-3 medications with their role, dosage, and schedule, using this exact format:\n                - Medication 1: [Name] - Role: [Role] - Dosage: [Dosage] - Schedule: [Schedule]\n                - Medication 2: [Name] - Role: [Role] - Dosage: [Dosage] - Schedule: [Schedule]\n                - Medication 3: [Name] - Role: [Role] - Dosage: [Dosage] - Schedule: [Schedule]\n                Input: "

/-- `followUpTemplate` up to its `symptoms` placeholder. -/
def fuP1 : String :=
  "\n                You are a medical assistant coordinating follow-up care. Suggest 2 follow-up actions and monitoring tips, using this exact format:\n                - Follow-Up Action 1: [Action] - [Timeline]\n                - Follow-Up Action 2: [Action] - [Timeline]\n                - Monitoring for New Issues: [Suggestions]\n                Input:\n                - Symptoms: "

/-- `followUpTemplate` between the `symptoms` and
`preliminary_assessment` placeholders. -/
def fuP2 : String := "\n                - Preliminary Assessment: "

/-- `followUpTemplate` between the `preliminary_assessment` and
`diagnosis` placeholders. -/
def fuP3 : String := "\n                - Diagnosis: "

/-- `followUpTemplate` between the `diagnosis` and `medications`
placeholders. -/
def fuP4 : String := "\n                - Medications: "

set_option maxRecDepth 8192 in
theorem gd_data_decomp :
    generalDoctorTemplate.data
      = gdPre.data ++ '\x7b' :: ("symptoms".data ++ '\x7d' :: tmplEnd.data) := by
  decide

set_option maxRecDepth 8192 in
theorem diag_data_decomp :
    diagnosisTemplate.data
      = diagPre.data ++ '\x7b' :: ("preliminary_assessment".data ++ '\x7d' :: tmplEnd.data) := by
  decide

set_option maxRecDepth 8192 in
theorem med_data_decomp :
    medicationTemplate.data
      = medPre.data ++ '\x7b' :: ("diagnosis".data ++ '\x7d' :: tmplEnd.data) := by
  decide

set_option maxRecDepth 16384 in
theorem fu_data_decomp :
    followUpTemplate.data
      = fuP1.data ++ '\x7b' :: ("symptoms".data ++ '\x7d' ::
        (fuP2.data ++ '\x7b' :: ("preliminary_assessment".data ++ '\x7d' ::
        (fuP3.data ++ '\x7b' :: ("diagnosis".data ++ '\x7d' ::
        (fuP4.data ++ '\x7b' :: ("medications".data ++ '\x7d' ::
        tmplEnd.data))))))) := by
  decide

/-- Formatting a template with a single placeholder substitutes the
bound value verbatim between the surrounding template pieces. -/
theorem formatTemplate_single (tmpl pre name suf : String) (f : String → String)
    (hdecomp : tmpl.data = pre.data ++ '\x7b' :: (name.data ++ '\x7d' :: suf.data))
    (hpre : pre.data.all (fun c => !(c == '\x7b')) = true)
    (hname : name.data.all (fun c => !(c == '\x7d')) = true)
    (hsuf : suf.data.all (fun c => !(c == '\x7b')) = true) :
    formatTemplate tmpl f = pre ++ f name ++ suf := by
  apply String.ext
  show formatChars f tmpl.data none = (pre ++ f name ++ suf).data
  rw [hdecomp, formatChars_subst f _ _ _ hpre hname, formatChars_no_brace f _ hsuf]
  rw [String.data_append, String.data_append]
  rw [show String.mk name.data = name from rfl]
  simp [List.append_assoc]

set_option maxRecDepth 16384 in
/-- Formatting the four-placeholder follow-up template substitutes the
four bound values verbatim between the five template pieces. -/
theorem formatTemplate_followUp (f : String → String) :
    formatTemplate followUpTemplate f
      = fuP1 ++ f "symptoms" ++ fuP2 ++ f "preliminary_assessment"
        ++ fuP3 ++ f "diagnosis" ++ fuP4 ++ f "medications" ++ tmplEnd := by
  apply String.ext
  show formatChars f followUpTemplate.data none = _
  rw [fu_data_decomp]
  rw [formatChars_subst f _ _ _ (by decide) (by decide)]
  rw [formatChars_subst f _ _ _ (by decide) (by decide)]
  rw [formatChars_subst f _ _ _ (by decide) (by decide)]
  rw [formatChars_subst f _ _ _ (by decide) (by decide)]
  rw [formatChars_no_brace f _ (by decide)]
  rw [show String.mk ("symptoms".data) = "symptoms" from rfl]
  rw [show String.mk ("preliminary_assessment".data) = "preliminary_assessment" from rfl]
  rw [show String.mk ("diagnosis".data) = "diagnosis" from rfl]
  rw [show String.mk ("medications".data) = "medications" from rfl]
  simp [String.data_append, List.append_assoc]

/-! ### Claim theorems -/

set_option maxRecDepth 8192 in
/-- C6: for every role and every present required field values, the
prompt sent to the model is the role's fixed template with its named
fields substituted verbatim: each template splits as fixed text around
its placeholders, and the prompt built by `Agent.run` is exactly that
fixed text with the field values spliced in unchanged. -/
theorem prompt_templates_verbatim :
    (generalDoctorTemplate = gdPre ++ "{symptoms}" ++ tmplEnd
      ∧ ∀ s : String, s ≠ "" →
        buildPrompt Role.GeneralDoctor [("symptoms", s)] = some (gdPre ++ s ++ tmplEnd))
  ∧ (diagnosisTemplate = diagPre ++ "{preliminary_assessment}" ++ tmplEnd
      ∧ ∀ s : String, s ≠ "" →
        buildPrompt Role.Diagnosis [("preliminary_assessment", s)]
          = some (diagPre ++ s ++ tmplEnd))
  ∧ (medicationTemplate = medPre ++ "{diagnosis}" ++ tmplEnd
      ∧ ∀ s : String, s ≠ "" →
        buildPrompt Role.Medication [("diagnosis", s)] = some (medPre ++ s ++ tmplEnd))
  ∧ (followUpTemplate
        = fuP1 ++ "{symptoms}" ++ fuP2 ++ "{preliminary_assessment}"
          ++ fuP3 ++ "{diagnosis}" ++ fuP4 ++ "{medications}" ++ tmplEnd
      ∧ ∀ a b c d : String, a ≠ "" → b ≠ "" → c ≠ "" → d ≠ "" →
        buildPrompt Role.FollowUp
            [("symptoms", a), ("preliminary_assessment", b),
             ("diagnosis", c), ("medications", d)]
          = some (fuP1 ++ a ++ fuP2 ++ b ++ fuP3 ++ c ++ fuP4 ++ d ++ tmplEnd)) := by
  refine ⟨⟨?_, ?_⟩, ⟨?_, ?_⟩, ⟨?_, ?_⟩, ⟨?_, ?_⟩⟩
  · apply String.ext
    rw [gd_data_decomp, String.data_append, String.data_append]
    simp [show ("{symptoms}" : String).data = '\x7b' :: ("symptoms".data ++ ['\x7d']) from rfl]
  · intro s hs
    have ht : truthy (some s) = true := by simp [truthy, hs]
    simp only [buildPrompt, List.lookup, beq_self_eq_true, ht, if_true, Option.getD_some]
    rw [formatTemplate_single generalDoctorTemplate gdPre "symptoms" tmplEnd _
      gd_data_decomp (by decide) (by decide) (by decide)]
    simp
  · apply String.ext
    rw [diag_data_decomp, String.data_append, String.data_append]
    simp [show ("{preliminary_assessment}" : String).data
      = '\x7b' :: ("preliminary_assessment".data ++ ['\x7d']) from rfl]
  · intro s hs
    have ht : truthy (some s) = true := by simp [truthy, hs]
    simp only [buildPrompt, List.lookup, beq_self_eq_true, ht, if_true, Option.getD_some]
    rw [formatTemplate_single diagnosisTemplate diagPre "preliminary_assessment" tmplEnd _
      diag_data_decomp (by decide) (by decide) (by decide)]
    simp
  · apply String.ext
    rw [med_data_decomp, String.data_append, String.data_append]
    simp [show ("{diagnosis}" : String).data = '\x7b' :: ("diagnosis".data ++ ['\x7d']) from rfl]
  · intro s hs
    have ht : truthy (some s) = true := by simp [truthy, hs]
    simp only [buildPrompt, List.lookup, beq_self_eq_true, ht, if_true, Option.getD_some]
    rw [formatTemplate_single medicationTemplate medPre "diagnosis" tmplEnd _
      med_data_decomp (by decide) (by decide) (by decide)]
    simp
  · apply String.ext
    rw [fu_data_decomp]
    simp [String.data_append,
      show ("{symptoms}" : String).data = '\x7b' :: ("symptoms".data ++ ['\x7d']) from rfl,
      show ("{preliminary_assessment}" : String).data
        = '\x7b' :: ("preliminary_assessment".data ++ ['\x7d']) from rfl,
      show ("{diagnosis}" : String).data = '\x7b' :: ("diagnosis".data ++ ['\x7d']) from rfl,
      show ("{medications}" : String).data = '\x7b' :: ("medications".data ++ ['\x7d']) from rfl,
      List.append_assoc]
  · intro a b c d ha hb hc hd
    have hta : truthy (some a) = true := by simp [truthy, ha]
    have htb : truthy (some b) = true := by simp [truthy, hb]
    have htc : truthy (some c) = true := by simp [truthy, hc]
    have htd : truthy (some d) = true := by simp [truthy, hd]
    simp only [buildPrompt, List.lookup, beq_self_eq_true, List.all_cons, List.all_nil,
      hta, htb, htc, htd, Bool.and_true, Bool.and_self, if_true, Option.getD_some]
    rw [formatTemplate_followUp]
    simp
    exact ⟨htb, htc, htd⟩

/-- A model that always produces the same outcome (used for concrete
instantiations). -/
def constModel (r : ModelResponse) : Model := fun _ => r

/-- C2: for every role and every input mapping, if a required named
input field of that role is absent, `Agent.run` returns `none`; the
result is the same for every model (quantified over `om`), so the
remote model is never invoked.  GeneralDoctor requires `symptoms`,
Diagnosis requires `preliminary_assessment`, Medication requires
`diagnosis`, FollowUp requires all four fields. -/
theorem run_missing_field_returns_none :
    (∀ (d : InputData) (om : Option Model), d.lookup "symptoms" = none →
      (Agent.mk Role.GeneralDoctor d om).run = none)
  ∧ (∀ (d : InputData) (om : Option Model), d.lookup "preliminary_assessment" = none →
      (Agent.mk Role.Diagnosis d om).run = none)
  ∧ (∀ (d : InputData) (om : Option Model), d.lookup "diagnosis" = none →
      (Agent.mk Role.Medication d om).run = none)
  ∧ (∀ (d : InputData) (om : Option Model)
      (k : String), k ∈ (["symptoms", "preliminary_assessment", "diagnosis", "medications"] : List String) →
      d.lookup k = none →
      (Agent.mk Role.FollowUp d om).run = none) := by
  refine ⟨?_, ?_, ?_, ?_⟩
  · intro d om h
    cases om with
    | none => rfl
    | some m =>
      have hb : buildPrompt Role.GeneralDoctor d = none := by
        simp [buildPrompt, h, truthy]
      simp [Agent.run, hb]
  · intro d om h
    cases om with
    | none => rfl
    | some m =>
      have hb : buildPrompt Role.Diagnosis d = none := by
        simp [buildPrompt, h, truthy]
      simp [Agent.run, hb]
  · intro d om h
    cases om with
    | none => rfl
    | some m =>
      have hb : buildPrompt Role.Medication d = none := by
        simp [buildPrompt, h, truthy]
      simp [Agent.run, hb]
  · intro d om k hk h
    cases om with
    | none => rfl
    | some m =>
      have hall : (["symptoms", "preliminary_assessment", "diagnosis", "medications"].all
          (fun key => truthy (d.lookup key))) = false := by
        apply List.all_eq_false.mpr
        exact ⟨k, hk, by simp [h, truthy]⟩
      have hb : buildPrompt Role.FollowUp d = none := by
        simp only [buildPrompt, hall, Bool.false_eq_true, if_false]
      simp [Agent.run, hb]

/-- C2 witness: concrete empty mappings at each role. -/
theorem run_missing_field_returns_none_witness :
    (Agent.mk Role.GeneralDoctor [] (some (constModel (ModelResponse.text "ok")))).run = none
  ∧ (Agent.mk Role.Diagnosis [] (some (constModel (ModelResponse.text "ok")))).run = none
  ∧ (Agent.mk Role.Medication [] (some (constModel (ModelResponse.text "ok")))).run = none
  ∧ (Agent.mk Role.FollowUp [("symptoms", "s")] (some (constModel (ModelResponse.text "ok")))).run = none :=
  ⟨run_missing_field_returns_none.1 [] _ rfl,
   run_missing_field_returns_none.2.1 [] _ rfl,
   run_missing_field_returns_none.2.2.1 [] _ rfl,
   run_missing_field_returns_none.2.2.2 [("symptoms", "s")] _ "diagnosis" (by simp) rfl⟩

/-- C9: a required field bound to the empty string is treated exactly
like an absent one — the check is Python truthiness — so `Agent.run`
returns `none` for every model, without invoking it. -/
theorem run_empty_field_like_missing :
    (∀ (d : InputData) (om : Option Model), d.lookup "symptoms" = some "" →
      (Agent.mk Role.GeneralDoctor d om).run = none)
  ∧ (∀ (d : InputData) (om : Option Model), d.lookup "preliminary_assessment" = some "" →
      (Agent.mk Role.Diagnosis d om).run = none)
  ∧ (∀ (d : InputData) (om : Option Model), d.lookup "diagnosis" = some "" →
      (Agent.mk Role.Medication d om).run = none)
  ∧ (∀ (d : InputData) (om : Option Model)
      (k : String), k ∈ (["symptoms", "preliminary_assessment", "diagnosis", "medications"] : List String) →
      d.lookup k = some "" →
      (Agent.mk Role.FollowUp d om).run = none) := by
  refine ⟨?_, ?_, ?_, ?_⟩
  · intro d om h
    cases om with
    | none => rfl
    | some m =>
      have hb : buildPrompt Role.GeneralDoctor d = none := by
        simp [buildPrompt, h, truthy]
      simp [Agent.run, hb]
  · intro d om h
    cases om with
    | none => rfl
    | some m =>
      have hb : buildPrompt Role.Diagnosis d = none := by
        simp [buildPrompt, h, truthy]
      simp [Agent.run, hb]
  · intro d om h
    cases om with
    | none => rfl
    | some m =>
      have hb : buildPrompt Role.Medication d = none := by
        simp [buildPrompt, h, truthy]
      simp [Agent.run, hb]
  · intro d om k hk h
    cases om with
    | none => rfl
    | some m =>
      have hall : (["symptoms", "preliminary_assessment", "diagnosis", "medications"].all
          (fun key => truthy (d.lookup key))) = false := by
        apply List.all_eq_false.mpr
        exact ⟨k, hk, by simp [h, truthy]⟩
      have hb : buildPrompt Role.FollowUp d = none := by
        simp only [buildPrompt, hall, Bool.false_eq_true, if_false]
      simp [Agent.run, hb]

/-- C9 witness: concrete empty-string bindings at each role. -/
theorem run_empty_field_like_missing_witness :
    (Agent.mk Role.GeneralDoctor [("symptoms", "")] (some (constModel (ModelResponse.text "ok")))).run = none
  ∧ (Agent.mk Role.Diagnosis [("preliminary_assessment", "")] (some (constModel (ModelResponse.text "ok")))).run = none
  ∧ (Agent.mk Role.Medication [("diagnosis", "")] (some (constModel (ModelResponse.text "ok")))).run = none
  ∧ (Agent.mk Role.FollowUp
      [("symptoms", "s"), ("preliminary_assessment", "p"), ("diagnosis", "d"), ("medications", "")]
      (some (constModel (ModelResponse.text "ok")))).run = none :=
  ⟨run_empty_field_like_missing.1 [("symptoms", "")] _ rfl,
   run_empty_field_like_missing.2.1 [("preliminary_assessment", "")] _ rfl,
   run_empty_field_like_missing.2.2.1 [("diagnosis", "")] _ rfl,
   run_empty_field_like_missing.2.2.2 _ _ "medications" (by simp) rfl⟩

/-- C3: when the model invocation raises the provider's rate-limit
error (`ResourceExhausted`) or permission error (`Forbidden`),
`Agent.run` returns the corresponding fixed sentinel string — one per
error kind, both containing the marker `Error` — rather than `none` or
a propagated exception. -/
theorem run_provider_error_sentinels (a : Agent) (m : Model) (p : String)
    (hm : a.model = some m) (hp : buildPrompt a.role a.input_data = some p) :
    (m p = ModelResponse.rateLimit → a.run = some rateLimitSentinel)
  ∧ (m p = ModelResponse.forbidden → a.run = some forbiddenSentinel)
  ∧ strContains rateLimitSentinel "Error" = true
  ∧ strContains forbiddenSentinel "Error" = true := by
  refine ⟨?_, ?_, by decide, by decide⟩
  · intro h
    simp [Agent.run, hm, hp, h]
  · intro h
    simp [Agent.run, hm, hp, h]

/-- C3 witness: a rate-limited and a forbidden invocation at a
concrete agent. -/
theorem run_provider_error_sentinels_witness :
    (Agent.mk Role.GeneralDoctor [("symptoms", "x")] (some (constModel ModelResponse.rateLimit))).run
      = some rateLimitSentinel
  ∧ (Agent.mk Role.GeneralDoctor [("symptoms", "x")] (some (constModel ModelResponse.forbidden))).run
      = some forbiddenSentinel :=
  ⟨(run_provider_error_sentinels
      (Agent.mk Role.GeneralDoctor [("symptoms", "x")] (some (constModel ModelResponse.rateLimit)))
      (constModel ModelResponse.rateLimit) _ rfl rfl).1 rfl,
   (run_provider_error_sentinels
      (Agent.mk Role.GeneralDoctor [("symptoms", "x")] (some (constModel ModelResponse.forbidden)))
      (constModel ModelResponse.forbidden) _ rfl rfl).2.1 rfl⟩

/-- C4: when the model invocation succeeds but the response text is
empty or whitespace-only, `Agent.run` returns the fixed blocked
sentinel, which differs from both provider-error sentinels. -/
theorem run_empty_response_blocked (a : Agent) (m : Model) (p t : String)
    (hm : a.model = some m) (hp : buildPrompt a.role a.input_data = some p)
    (ht : m p = ModelResponse.text t) (hw : pyStrip t = "") :
    a.run = some blockedSentinel
  ∧ blockedSentinel = "Blocked: Response filtered due to content restrictions"
  ∧ blockedSentinel ≠ rateLimitSentinel
  ∧ blockedSentinel ≠ forbiddenSentinel := by
  refine ⟨?_, rfl, by decide, by decide⟩
  simp [Agent.run, hm, hp, ht, hw]

/-- C4 witness: a whitespace-only response at a concrete agent. -/
theorem run_empty_response_blocked_witness :
    (Agent.mk Role.GeneralDoctor [("symptoms", "x")]
      (some (constModel (ModelResponse.text "   ")))).run = some blockedSentinel :=
  (run_empty_response_blocked
    (Agent.mk Role.GeneralDoctor [("symptoms", "x")] (some (constModel (ModelResponse.text "   "))))
    (constModel (ModelResponse.text "   ")) _ "   " rfl rfl rfl (by decide)).1

/-- C5: any failure of the model invocation other than the recognized
rate-limit and permission errors is swallowed: `Agent.run` returns
`none` instead of propagating it. -/
theorem run_other_failure_swallowed (a : Agent) (m : Model) (p : String)
    (hm : a.model = some m) (hp : buildPrompt a.role a.input_data = some p)
    (hf : m p = ModelResponse.failure) :
    a.run = none := by
  simp [Agent.run, hm, hp, hf]

/-- C5 witness: an unrecognized failure at a concrete agent. -/
theorem run_other_failure_swallowed_witness :
    (Agent.mk Role.GeneralDoctor [("symptoms", "x")]
      (some (constModel ModelResponse.failure))).run = none :=
  run_other_failure_swallowed
    (Agent.mk Role.GeneralDoctor [("symptoms", "x")] (some (constModel ModelResponse.failure)))
    (constModel ModelResponse.failure) _ rfl rfl rfl

/-- C6 witness: concrete field values at each role. -/
theorem prompt_templates_verbatim_witness :
    buildPrompt Role.GeneralDoctor [("symptoms", "fever")] = some (gdPre ++ "fever" ++ tmplEnd)
  ∧ buildPrompt Role.Diagnosis [("preliminary_assessment", "flu")] = some (diagPre ++ "flu" ++ tmplEnd)
  ∧ buildPrompt Role.Medication [("diagnosis", "flu")] = some (medPre ++ "flu" ++ tmplEnd)
  ∧ buildPrompt Role.FollowUp
      [("symptoms", "fever"), ("preliminary_assessment", "flu"),
       ("diagnosis", "flu"), ("medications", "rest")]
      = some (fuP1 ++ "fever" ++ fuP2 ++ "flu" ++ fuP3 ++ "flu" ++ fuP4 ++ "rest" ++ tmplEnd) :=
  ⟨prompt_templates_verbatim.1.2 "fever" (by decide),
   prompt_templates_verbatim.2.1.2 "flu" (by decide),
   prompt_templates_verbatim.2.2.1.2 "flu" (by decide),
   prompt_templates_verbatim.2.2.2.2 "fever" "flu" "flu" "rest"
     (by decide) (by decide) (by decide) (by decide)⟩

/-! ### Characterizations of `run_workflow` by stage outcome -/

/-- When the first stage output fails the sentinel test, the workflow
returns only the first entry. -/
theorem run_workflow_char1 (env : Env) (symptoms : String)
    (h : failedOutput ((GeneralDoctorAgent env.generalDoctorModel symptoms).run) = true) :
    run_workflow env symptoms
      = [("general_doctor", (GeneralDoctorAgent env.generalDoctorModel symptoms).run)] := by
  simp only [run_workflow, h, if_true]

/-- When the first stage passes and the second fails, the workflow
returns the first two entries. -/
theorem run_workflow_char2 (env : Env) (symptoms t1 : String)
    (h1 : (GeneralDoctorAgent env.generalDoctorModel symptoms).run = some t1)
    (hf1 : failedOutput (some t1) = false)
    (h : failedOutput ((DiagnosisAgent env.diagnosisModel t1).run) = true) :
    run_workflow env symptoms
      = [("general_doctor", some t1),
         ("diagnosis", (DiagnosisAgent env.diagnosisModel t1).run)] := by
  simp only [run_workflow, h1, hf1, Bool.false_eq_true, if_false, Option.getD_some, h, if_true]

/-- When the first two stages pass and the third fails, the workflow
returns the first three entries. -/
theorem run_workflow_char3 (env : Env) (symptoms t1 t2 : String)
    (h1 : (GeneralDoctorAgent env.generalDoctorModel symptoms).run = some t1)
    (hf1 : failedOutput (some t1) = false)
    (h2 : (DiagnosisAgent env.diagnosisModel t1).run = some t2)
    (hf2 : failedOutput (some t2) = false)
    (h : failedOutput ((MedicationAgent env.medicationModel t2).run) = true) :
    run_workflow env symptoms
      = [("general_doctor", some t1), ("diagnosis", some t2),
         ("medication", (MedicationAgent env.medicationModel t2).run)] := by
  simp only [run_workflow, h1, hf1, Bool.false_eq_true, if_false, Option.getD_some, h2, hf2,
    h, if_true]

/-- When the first three stages pass, the workflow returns all four
entries, the follow-up output unchecked. -/
theorem run_workflow_char4 (env : Env) (symptoms t1 t2 t3 : String)
    (h1 : (GeneralDoctorAgent env.generalDoctorModel symptoms).run = some t1)
    (hf1 : failedOutput (some t1) = false)
    (h2 : (DiagnosisAgent env.diagnosisModel t1).run = some t2)
    (hf2 : failedOutput (some t2) = false)
    (h3 : (MedicationAgent env.medicationModel t2).run = some t3)
    (hf3 : failedOutput (some t3) = false) :
    run_workflow env symptoms
      = [("general_doctor", some t1), ("diagnosis", some t2), ("medication", some t3),
         ("follow_up", (FollowUpAgent env.followUpModel symptoms t1 t2 t3).run)] := by
  simp only [run_workflow, h1, hf1, Bool.false_eq_true, if_false, Option.getD_some, h2, hf2,
    h3, hf3]

/-- C7: on an all-success run the outputs are threaded in the fixed
order: the diagnosis stage consumes the general-doctor output as its
`preliminary_assessment` (see `DiagnosisAgent`), the medication stage
consumes the diagnosis output as its `diagnosis` (see
`MedicationAgent`), and the follow-up stage receives the original
symptoms together with the three preceding outputs (see
`FollowUpAgent`). -/
theorem run_workflow_threads_outputs (env : Env) (symptoms t1 t2 t3 : String)
    (h1 : (GeneralDoctorAgent env.generalDoctorModel symptoms).run = some t1)
    (hf1 : failedOutput (some t1) = false)
    (h2 : (DiagnosisAgent env.diagnosisModel t1).run = some t2)
    (hf2 : failedOutput (some t2) = false)
    (h3 : (MedicationAgent env.medicationModel t2).run = some t3)
    (hf3 : failedOutput (some t3) = false) :
    run_workflow env symptoms
      = [("general_doctor", some t1), ("diagnosis", some t2), ("medication", some t3),
         ("follow_up", (FollowUpAgent env.followUpModel symptoms t1 t2 t3).run)] :=
  run_workflow_char4 env symptoms t1 t2 t3 h1 hf1 h2 hf2 h3 hf3

/-- Environment in which each stage's model answers with a distinct
fixed text. -/
def envThread : Env :=
  ⟨some (constModel (ModelResponse.text "A")), some (constModel (ModelResponse.text "B")),
   some (constModel (ModelResponse.text "C")), some (constModel (ModelResponse.text "D"))⟩

/-- C7 witness: a concrete all-success run. -/
theorem run_workflow_threads_outputs_witness :
    run_workflow envThread "sym"
      = [("general_doctor", some "A"), ("diagnosis", some "B"), ("medication", some "C"),
         ("follow_up", (FollowUpAgent envThread.followUpModel "sym" "A" "B" "C").run)] :=
  run_workflow_threads_outputs envThread "sym" "A" "B" "C"
    (by decide) (by decide) (by decide) (by decide) (by decide) (by decide)

/-- The stage-failure condition as the specification states it: the
stage output is missing, or it contains one of the failure
sentinel markers. -/
def sentinelFailure (r : Option String) : Prop :=
  r = none ∨ ∃ s, r = some s ∧ (strContains s "Error" = true ∨ strContains s "Blocked" = true)

/-- The specification's failure condition implies the code's stage
test (which additionally fails on the empty string). -/
theorem sentinelFailure_failedOutput (r : Option String) (h : sentinelFailure r) :
    failedOutput r = true := by
  rcases h with h | ⟨s, rfl, h⟩
  · rw [h]; rfl
  · rcases h with h | h <;> simp [failedOutput, h]

/-- C1: as soon as the general-doctor, diagnosis, or medication stage
returns `none` or an output containing a failure sentinel, the
workflow returns the results accumulated so far; and the result is
unchanged under any reassignment of the later stages' models
(`env2` agrees with `env` only up to the failed stage), so no
subsequent agent is ever constructed or invoked. -/
theorem run_workflow_halts_on_stage_failure (env env2 : Env) (symptoms : String) :
    (sentinelFailure ((GeneralDoctorAgent env.generalDoctorModel symptoms).run) →
      run_workflow env symptoms
        = [("general_doctor", (GeneralDoctorAgent env.generalDoctorModel symptoms).run)]
      ∧ (env2.generalDoctorModel = env.generalDoctorModel →
          run_workflow env2 symptoms = run_workflow env symptoms))
  ∧ (∀ t1, (GeneralDoctorAgent env.generalDoctorModel symptoms).run = some t1 →
      failedOutput (some t1) = false →
      sentinelFailure ((DiagnosisAgent env.diagnosisModel t1).run) →
      run_workflow env symptoms
        = [("general_doctor", some t1), ("diagnosis", (DiagnosisAgent env.diagnosisModel t1).run)]
      ∧ (env2.generalDoctorModel = env.generalDoctorModel →
         env2.diagnosisModel = env.diagnosisModel →
          run_workflow env2 symptoms = run_workflow env symptoms))
  ∧ (∀ t1 t2, (GeneralDoctorAgent env.generalDoctorModel symptoms).run = some t1 →
      failedOutput (some t1) = false →
      (DiagnosisAgent env.diagnosisModel t1).run = some t2 →
      failedOutput (some t2) = false →
      sentinelFailure ((MedicationAgent env.medicationModel t2).run) →
      run_workflow env symptoms
        = [("general_doctor", some t1), ("diagnosis", some t2),
           ("medication", (MedicationAgent env.medicationModel t2).run)]
      ∧ (env2.generalDoctorModel = env.generalDoctorModel →
         env2.diagnosisModel = env.diagnosisModel →
         env2.medicationModel = env.medicationModel →
          run_workflow env2 symptoms = run_workflow env symptoms)) := by
  refine ⟨?_, ?_, ?_⟩
  · intro hsf
    have hf := sentinelFailure_failedOutput _ hsf
    refine ⟨run_workflow_char1 env symptoms hf, ?_⟩
    intro hgd
    rw [run_workflow_char1 env2 symptoms (by rw [hgd]; exact hf),
      run_workflow_char1 env symptoms hf, hgd]
  · intro t1 h1 hf1 hsf
    have hf := sentinelFailure_failedOutput _ hsf
    refine ⟨run_workflow_char2 env symptoms t1 h1 hf1 hf, ?_⟩
    intro hgd hdg
    rw [run_workflow_char2 env2 symptoms t1 (by rw [hgd]; exact h1) hf1 (by rw [hdg]; exact hf),
      run_workflow_char2 env symptoms t1 h1 hf1 hf, hdg]
  · intro t1 t2 h1 hf1 h2 hf2 hsf
    have hf := sentinelFailure_failedOutput _ hsf
    refine ⟨run_workflow_char3 env symptoms t1 t2 h1 hf1 h2 hf2 hf, ?_⟩
    intro hgd hdg hmed
    rw [run_workflow_char3 env2 symptoms t1 t2 (by rw [hgd]; exact h1) hf1
        (by rw [hdg]; exact h2) hf2 (by rw [hmed]; exact hf),
      run_workflow_char3 env symptoms t1 t2 h1 hf1 h2 hf2 hf, hmed]

/-- Environment whose first stage is rate-limited (later stages have
no model at all). -/
def envFail1 : Env := ⟨some (constModel ModelResponse.rateLimit), none, none, none⟩

/-- Environment whose second stage is rate-limited. -/
def envFail2 : Env :=
  ⟨some (constModel (ModelResponse.text "A")), some (constModel ModelResponse.rateLimit),
   none, none⟩

/-- Environment whose third stage is rate-limited. -/
def envFail3 : Env :=
  ⟨some (constModel (ModelResponse.text "A")), some (constModel (ModelResponse.text "B")),
   some (constModel ModelResponse.rateLimit), none⟩

/-- C1 witness: concrete failures at each of the three checked
stages. -/
theorem run_workflow_halts_on_stage_failure_witness :
    run_workflow envFail1 "s" = [("general_doctor", some rateLimitSentinel)]
  ∧ run_workflow envFail2 "s"
      = [("general_doctor", some "A"), ("diagnosis", some rateLimitSentinel)]
  ∧ run_workflow envFail3 "s"
      = [("general_doctor", some "A"), ("diagnosis", some "B"),
         ("medication", some rateLimitSentinel)] :=
  ⟨(((run_workflow_halts_on_stage_failure envFail1 envFail1 "s").1
      (Or.inr ⟨rateLimitSentinel, by decide, Or.inl (by decide)⟩)).1).trans (by decide),
   (((run_workflow_halts_on_stage_failure envFail2 envFail2 "s").2.1 "A" (by decide) (by decide)
      (Or.inr ⟨rateLimitSentinel, by decide, Or.inl (by decide)⟩)).1).trans (by decide),
   (((run_workflow_halts_on_stage_failure envFail3 envFail3 "s").2.2 "A" "B" (by decide)
      (by decide) (by decide) (by decide)
      (Or.inr ⟨rateLimitSentinel, by decide, Or.inl (by decide)⟩)).1).trans (by decide)⟩

/-- A stage output passing the failure test is a non-empty string
containing neither failure marker. -/
theorem not_failedOutput (r : Option String) (h : failedOutput r = false) :
    ∃ v, r = some v ∧ (v == "") = false
      ∧ strContains v "Error" = false ∧ strContains v "Blocked" = false := by
  cases r with
  | none => exact absurd h (by simp [failedOutput])
  | some s =>
    simp only [failedOutput, Bool.or_eq_false_iff] at h
    exact ⟨s, rfl, h.1.1, h.1.2, h.2⟩

/-- C10: the dictionary produced by `run_workflow` always has a key
list that is a prefix of the fixed stage sequence; every entry other
than the last maps to a present value containing neither `Error` nor
`Blocked`; and a `follow_up` entry, when present, is exactly the
follow-up agent's output, with no failure test applied to it. -/
theorem run_workflow_results_invariant (env : Env) (symptoms : String) :
    ((run_workflow env symptoms).map Prod.fst = ["general_doctor"]
      ∨ (run_workflow env symptoms).map Prod.fst = ["general_doctor", "diagnosis"]
      ∨ (run_workflow env symptoms).map Prod.fst = ["general_doctor", "diagnosis", "medication"]
      ∨ (run_workflow env symptoms).map Prod.fst
          = ["general_doctor", "diagnosis", "medication", "follow_up"])
  ∧ (∀ p ∈ (run_workflow env symptoms).dropLast,
      ∃ v, p.2 = some v ∧ strContains v "Error" = false ∧ strContains v "Blocked" = false)
  ∧ (∀ t1 t2 t3 r4,
      run_workflow env symptoms
        = [("general_doctor", some t1), ("diagnosis", some t2), ("medication", some t3),
           ("follow_up", r4)] →
      r4 = (FollowUpAgent env.followUpModel symptoms t1 t2 t3).run) := by
  cases hb1 : failedOutput ((GeneralDoctorAgent env.generalDoctorModel symptoms).run) with
  | true =>
    have e := run_workflow_char1 env symptoms hb1
    rw [e]
    refine ⟨Or.inl rfl, ?_, ?_⟩
    · intro p hp
      simp at hp
    · intro t1 t2 t3 r4 h
      exact absurd h (by simp)
  | false =>
    obtain ⟨t1, e1, hne1, her1, hbr1⟩ := not_failedOutput _ hb1
    rw [e1] at hb1
    cases hb2 : failedOutput ((DiagnosisAgent env.diagnosisModel t1).run) with
    | true =>
      have e := run_workflow_char2 env symptoms t1 e1 hb1 hb2
      rw [e]
      refine ⟨Or.inr (Or.inl rfl), ?_, ?_⟩
      · intro p hp
        simp only [List.dropLast_cons₂, List.dropLast_single, List.mem_cons,
          List.not_mem_nil, or_false] at hp
        exact ⟨t1, by rw [hp], her1, hbr1⟩
      · intro a b c r4 h
        exact absurd h (by simp)
    | false =>
      obtain ⟨t2, e2, hne2, her2, hbr2⟩ := not_failedOutput _ hb2
      rw [e2] at hb2
      cases hb3 : failedOutput ((MedicationAgent env.medicationModel t2).run) with
      | true =>
        have e := run_workflow_char3 env symptoms t1 t2 e1 hb1 e2 hb2 hb3
        rw [e]
        refine ⟨Or.inr (Or.inr (Or.inl rfl)), ?_, ?_⟩
        · intro p hp
          simp only [List.dropLast_cons₂, List.dropLast_single, List.mem_cons,
            List.not_mem_nil, or_false] at hp
          rcases hp with hp | hp
          · exact ⟨t1, by rw [hp], her1, hbr1⟩
          · exact ⟨t2, by rw [hp], her2, hbr2⟩
        · intro a b c r4 h
          exact absurd h (by simp)
      | false =>
        obtain ⟨t3, e3, hne3, her3, hbr3⟩ := not_failedOutput _ hb3
        rw [e3] at hb3
        have e := run_workflow_char4 env symptoms t1 t2 t3 e1 hb1 e2 hb2 e3 hb3
        rw [e]
        refine ⟨Or.inr (Or.inr (Or.inr rfl)), ?_, ?_⟩
        · intro p hp
          simp only [List.dropLast_cons₂, List.dropLast_single, List.mem_cons,
            List.not_mem_nil, or_false] at hp
          rcases hp with hp | hp | hp
          · exact ⟨t1, by rw [hp], her1, hbr1⟩
          · exact ⟨t2, by rw [hp], her2, hbr2⟩
          · exact ⟨t3, by rw [hp], her3, hbr3⟩
        · intro a b c r4 h
          simp only [List.cons.injEq, Prod.mk.injEq, Option.some.injEq, and_true,
            true_and] at h
          obtain ⟨ha, hb, hc, hr⟩ := h
          rw [← hr, ← ha, ← hb, ← hc]

/-- C10 witness: the invariant at a concrete all-success run. -/
theorem run_workflow_results_invariant_witness :
    ((run_workflow envThread "sym").map Prod.fst = ["general_doctor"]
      ∨ (run_workflow envThread "sym").map Prod.fst = ["general_doctor", "diagnosis"]
      ∨ (run_workflow envThread "sym").map Prod.fst = ["general_doctor", "diagnosis", "medication"]
      ∨ (run_workflow envThread "sym").map Prod.fst
          = ["general_doctor", "diagnosis", "medication", "follow_up"])
  ∧ (∃ v, (some "A" : Option String) = some v
      ∧ strContains v "Error" = false ∧ strContains v "Blocked" = false)
  ∧ some "D" = (FollowUpAgent envThread.followUpModel "sym" "A" "B" "C").run :=
  ⟨(run_workflow_results_invariant envThread "sym").1,
   (run_workflow_results_invariant envThread "sym").2.1 ("general_doctor", some "A") (by decide),
   (run_workflow_results_invariant envThread "sym").2.2 "A" "B" "C" (some "D") (by decide)⟩

/-- C8: `main` accepts exactly the stripped choices `1`–`5`; each
option reads one input line per required field (options 1–4 one line,
option 5 four lines) and prints its result; any other choice prints
the invalid-choice message, leaves the rest of the input unread, and —
uniformly in the environment — constructs and runs no agent. -/
theorem mainCLI_menu_dispatch (env : Env) (rest : List String) :
    (∀ choice : String,
        pyStrip choice ∉ (["1", "2", "3", "4", "5"] : List String) →
        ∀ env2 : Env, mainCLI env2 (choice :: rest) = (menuLines ++ [invalidChoiceLine], rest))
  ∧ (∀ choice s : String, pyStrip choice = "1" →
      mainCLI env (choice :: s :: rest)
        = (menuLines ++
            ["\n=== Running Full Workflow ===",
             "\nGeneral Doctor Assessment:",
             dictGetPrint (run_workflow env (pyStrip s)) "general_doctor",
             "\nDiagnosis:", dictGetPrint (run_workflow env (pyStrip s)) "diagnosis",
             "\nMedication Recommendations:",
             dictGetPrint (run_workflow env (pyStrip s)) "medication",
             "\nFollow-Up Recommendations:",
             dictGetPrint (run_workflow env (pyStrip s)) "follow_up"], rest))
  ∧ (∀ choice s : String, pyStrip choice = "2" →
      mainCLI env (choice :: s :: rest)
        = (menuLines ++
            ["\n=== Running General Doctor Agent ===", "\nGeneral Doctor Assessment:",
             truthyPrint ((GeneralDoctorAgent env.generalDoctorModel (pyStrip s)).run)], rest))
  ∧ (∀ choice s : String, pyStrip choice = "3" →
      mainCLI env (choice :: s :: rest)
        = (menuLines ++
            ["\n=== Running Diagnosis Agent ===", "\nDiagnosis:",
             truthyPrint ((DiagnosisAgent env.diagnosisModel (pyStrip s)).run)], rest))
  ∧ (∀ choice s : String, pyStrip choice = "4" →
      mainCLI env (choice :: s :: rest)
        = (menuLines ++
            ["\n=== Running Medication Agent ===", "\nMedication Recommendations:",
             truthyPrint ((MedicationAgent env.medicationModel (pyStrip s)).run)], rest))
  ∧ (∀ choice a b c d : String, pyStrip choice = "5" →
      mainCLI env (choice :: a :: b :: c :: d :: rest)
        = (menuLines ++
            ["\n=== Running Follow-Up Agent ===", "\nFollow-Up Recommendations:",
             truthyPrint ((FollowUpAgent env.followUpModel
               (pyStrip a) (pyStrip b) (pyStrip c) (pyStrip d)).run)], rest)) := by
  refine ⟨?_, ?_, ?_, ?_, ?_, ?_⟩
  · intro choice h env2
    simp only [List.mem_cons, List.not_mem_nil, or_false, not_or] at h
    obtain ⟨h1, h2, h3, h4, h5⟩ := h
    simp [mainCLI, get_user_input, h1, h2, h3, h4, h5]
  · intro choice s h
    simp [mainCLI, get_user_input, h]
  · intro choice s h
    simp [mainCLI, get_user_input, h]
  · intro choice s h
    simp [mainCLI, get_user_input, h]
  · intro choice s h
    simp [mainCLI, get_user_input, h]
  · intro choice a b c d h
    simp [mainCLI, get_user_input, h]

/-- C8 witness: each menu branch at concrete inputs. -/
theorem mainCLI_menu_dispatch_witness :
    mainCLI envThread ["9"] = (menuLines ++ [invalidChoiceLine], [])
  ∧ mainCLI envThread ["1", "sym"]
      = (menuLines ++
          ["\n=== Running Full Workflow ===",
           "\nGeneral Doctor Assessment:", "A", "\nDiagnosis:", "B",
           "\nMedication Recommendations:", "C", "\nFollow-Up Recommendations:", "D"], [])
  ∧ mainCLI envThread ["2", "sym"]
      = (menuLines ++
          ["\n=== Running General Doctor Agent ===", "\nGeneral Doctor Assessment:", "A"], [])
  ∧ mainCLI envThread ["3", "prior"]
      = (menuLines ++ ["\n=== Running Diagnosis Agent ===", "\nDiagnosis:", "B"], [])
  ∧ mainCLI envThread ["4", "diag"]
      = (menuLines ++
          ["\n=== Running Medication Agent ===", "\nMedication Recommendations:", "C"], [])
  ∧ mainCLI envThread ["5", "s", "p", "d", "m"]
      = (menuLines ++
          ["\n=== Running Follow-Up Agent ===", "\nFollow-Up Recommendations:", "D"], []) :=
  ⟨(mainCLI_menu_dispatch envThread []).1 "9" (by decide) envThread,
   ((mainCLI_menu_dispatch envThread []).2.1 "1" "sym" (by decide)).trans (by decide),
   ((mainCLI_menu_dispatch envThread []).2.2.1 "2" "sym" (by decide)).trans (by decide),
   ((mainCLI_menu_dispatch envThread []).2.2.2.1 "3" "prior" (by decide)).trans (by decide),
   ((mainCLI_menu_dispatch envThread []).2.2.2.2.1 "4" "diag" (by decide)).trans (by decide),
   ((mainCLI_menu_dispatch envThread []).2.2.2.2.2 "5" "s" "p" "d" "m" (by decide)).trans
     (by decide)⟩
